import Mathlib

/-!
Verification of the `values`/`ir` IR-value core (src/values/value.go).

The Go file defines: the `Value` interface (a `Type()` method plus
`fmt.Stringer`), the `Instruction` interface (marker method `isInst`),
twenty-five plain struct node kinds (twelve binary arithmetic, six bitwise,
four memory-access, Icmp/Fcmp/Phi), the two predicate enumerations, and
twelve `isInst` marker methods (one per binary arithmetic struct).  The
structs carry no other methods; construction is by Go composite literal,
which zero-initializes unspecified fields.
-/

/-- Model of the external `types.Type` boundary: the core only needs
structural equality and a canonical textual form, so a type is its name. -/
structure Ty where
  name : String
deriving DecidableEq, Repr

/-- Model of a `values.Value` operand: the interface exposes `Type()` and a
textual rendering (`fmt.Stringer`).  An operand is identified by those two
observations. -/
structure Value where
  typ : Ty
  text : String
deriving DecidableEq, Repr

/-- Go `type IntPredicate int`. -/
abbrev IntPredicate := Int

/-- Go `type FloatPredicate int`. -/
abbrev FloatPredicate := Int

/-- `IntEq IntPredicate = iota` — first constant of the iota block, 0. -/
def IntEq : IntPredicate := 0

/-- `IntNe` — iota 1. -/
def IntNe : IntPredicate := 1

/-- `IntUgt` — iota 2. -/
def IntUgt : IntPredicate := 2

/-- `IntUge` — iota 3. -/
def IntUge : IntPredicate := 3

/-- `IntUlt` — iota 4. -/
def IntUlt : IntPredicate := 4

/-- `IntUle` — iota 5. -/
def IntUle : IntPredicate := 5

/-- `IntSgt` — iota 6. -/
def IntSgt : IntPredicate := 6

/-- `IntSge` — iota 7. -/
def IntSge : IntPredicate := 7

/-- `IntSlt` — iota 8. -/
def IntSlt : IntPredicate := 8

/-- `IntSle` — iota 9, last member of the block. -/
def IntSle : IntPredicate := 9

/-- `FloatFalse FloatPredicate = iota` — 0. -/
def FloatFalse : FloatPredicate := 0

/-- `FloatOeq` — iota 1. -/
def FloatOeq : FloatPredicate := 1

/-- `FloatOgt` — iota 2. -/
def FloatOgt : FloatPredicate := 2

/-- `FloatOge` — iota 3. -/
def FloatOge : FloatPredicate := 3

/-- `FloatOlt` — iota 4. -/
def FloatOlt : FloatPredicate := 4

/-- `FloatOle` — iota 5. -/
def FloatOle : FloatPredicate := 5

/-- `FloatOne` — iota 6. -/
def FloatOne : FloatPredicate := 6

/-- `FloatOrd` — iota 7. -/
def FloatOrd : FloatPredicate := 7

/-- `FloatUeq` — iota 8. -/
def FloatUeq : FloatPredicate := 8

/-- `FloatUgt` — iota 9. -/
def FloatUgt : FloatPredicate := 9

/-- `FloatUge` — iota 10. -/
def FloatUge : FloatPredicate := 10

/-- `FloatUlt` — iota 11. -/
def FloatUlt : FloatPredicate := 11

/-- `FloatUle` — iota 12. -/
def FloatUle : FloatPredicate := 12

/-- `FloatUne` — iota 13. -/
def FloatUne : FloatPredicate := 13

/-- `FloatUno` — iota 14. -/
def FloatUno : FloatPredicate := 14

/-- `FloatTrue` — iota 15, last member of the block. -/
def FloatTrue : FloatPredicate := 15

/-- The `IntPredicate` constant block in declaration order. -/
def intPredicates : List IntPredicate :=
  [IntEq, IntNe, IntUgt, IntUge, IntUlt, IntUle, IntSgt, IntSge, IntSlt, IntSle]

/-- The `FloatPredicate` constant block in declaration order. -/
def floatPredicates : List FloatPredicate :=
  [FloatFalse, FloatOeq, FloatOgt, FloatOge, FloatOlt, FloatOle, FloatOne,
   FloatOrd, FloatUeq, FloatUgt, FloatUge, FloatUlt, FloatUle, FloatUne,
   FloatUno, FloatTrue]

/-- `type AddInst struct { Type types.Type; Op1, Op2 values.Value }`
(`Type` is a Lean keyword, rendered as `Type'`). -/
structure AddInst where
  Type' : Ty
  Op1 : Value
  Op2 : Value
deriving DecidableEq, Repr

/-- `type FaddInst struct { Type types.Type; Op1, Op2 values.Value }`. -/
structure FaddInst where
  Type' : Ty
  Op1 : Value
  Op2 : Value
deriving DecidableEq, Repr

/-- `type SubInst struct { Type types.Type; Op1, Op2 values.Value }`. -/
structure SubInst where
  Type' : Ty
  Op1 : Value
  Op2 : Value
deriving DecidableEq, Repr

/-- `type FsubInst struct { Type types.Type; Op1, Op2 values.Value }`. -/
structure FsubInst where
  Type' : Ty
  Op1 : Value
  Op2 : Value
deriving DecidableEq, Repr

/-- `type MulInst struct { Type types.Type; Op1, Op2 values.Value }`. -/
structure MulInst where
  Type' : Ty
  Op1 : Value
  Op2 : Value
deriving DecidableEq, Repr

/-- `type FmulInst struct { Type types.Type; Op1, Op2 values.Value }`. -/
structure FmulInst where
  Type' : Ty
  Op1 : Value
  Op2 : Value
deriving DecidableEq, Repr

/-- `type UdivInst struct { Type types.Type; Op1, Op2 values.Value }`. -/
structure UdivInst where
  Type' : Ty
  Op1 : Value
  Op2 : Value
deriving DecidableEq, Repr

/-- `type SdivInst struct { Type types.Type; Op1, Op2 values.Value }`. -/
structure SdivInst where
  Type' : Ty
  Op1 : Value
  Op2 : Value
deriving DecidableEq, Repr

/-- `type FdivInst struct { Type types.Type; Op1, Op2 values.Value }`. -/
structure FdivInst where
  Type' : Ty
  Op1 : Value
  Op2 : Value
deriving DecidableEq, Repr

/-- `type UremInst struct { Type types.Type; Op1, Op2 values.Value }`. -/
structure UremInst where
  Type' : Ty
  Op1 : Value
  Op2 : Value
deriving DecidableEq, Repr

/-- `type SremInst struct { Type types.Type; Op1, Op2 values.Value }`. -/
structure SremInst where
  Type' : Ty
  Op1 : Value
  Op2 : Value
deriving DecidableEq, Repr

/-- `type FremInst struct { Type types.Type; Op1, Op2 values.Value }`. -/
structure FremInst where
  Type' : Ty
  Op1 : Value
  Op2 : Value
deriving DecidableEq, Repr

/-- `type ShlInst struct { Type types.Type; Op1, Op2 values.Value }`. -/
structure ShlInst where
  Type' : Ty
  Op1 : Value
  Op2 : Value
deriving DecidableEq, Repr

/-- `type LshrInst struct { Type types.Type; Op1, Op2 values.Value }`. -/
structure LshrInst where
  Type' : Ty
  Op1 : Value
  Op2 : Value
deriving DecidableEq, Repr

/-- `type AshrInst struct { Type types.Type; Op1, Op2 values.Value }`. -/
structure AshrInst where
  Type' : Ty
  Op1 : Value
  Op2 : Value
deriving DecidableEq, Repr

/-- `type AndInst struct { Type types.Type; Op1, Op2 values.Value }`. -/
structure AndInst where
  Type' : Ty
  Op1 : Value
  Op2 : Value
deriving DecidableEq, Repr

/-- `type OrInst struct { Type types.Type; Op1, Op2 values.Value }`. -/
structure OrInst where
  Type' : Ty
  Op1 : Value
  Op2 : Value
deriving DecidableEq, Repr

/-- `type XorInst struct { Type types.Type; Op1, Op2 values.Value }`. -/
structure XorInst where
  Type' : Ty
  Op1 : Value
  Op2 : Value
deriving DecidableEq, Repr

/-- `type AllocaInst struct { Type types.Type; NumElems int; Align int }`.
Go `int` is modelled as `Int`; no arithmetic is performed on these fields. -/
structure AllocaInst where
  Type' : Ty
  NumElems : Int
  Align : Int
deriving DecidableEq, Repr

/-- `type LoadInst struct { Type types.Type; Addr values.Value; Align int }`. -/
structure LoadInst where
  Type' : Ty
  Addr : Value
  Align : Int
deriving DecidableEq, Repr

/-- `type StoreInst struct { Type types.Type; Val values.Value;
Addr values.Value; Align int }`. -/
structure StoreInst where
  Type' : Ty
  Val : Value
  Addr : Value
  Align : Int
deriving DecidableEq, Repr

/-- `type GetelementptrInst struct { Type types.Type; Ptr values.Value;
Indicies []int }`. -/
structure GetelementptrInst where
  Type' : Ty
  Ptr : Value
  Indicies : List Int
deriving DecidableEq, Repr

/-- `type IcmpInst struct { Pred IntPredicate; Type types.Type;
Op1, Op2 values.Value }`. -/
structure IcmpInst where
  Pred : IntPredicate
  Type' : Ty
  Op1 : Value
  Op2 : Value
deriving DecidableEq, Repr

/-- `type FcmpInst struct { Pred FloatPredicate; Type types.Type;
Op1, Op2 values.Value }`. -/
structure FcmpInst where
  Pred : FloatPredicate
  Type' : Ty
  Op1 : Value
  Op2 : Value
deriving DecidableEq, Repr

/-- A Go `map[string]V`: unique string keys; observable behaviour is
`lookup` (exact key match) and `insert` (replace the entry when the key is
present, append an entry otherwise). -/
abbrev GoMap (β : Type) := List (String × β)

/-- Go map indexing `m[key]`: exact-match lookup of the entry stored for
`key`, absent keys yield nothing. -/
def GoMap.lookup {β : Type} : GoMap β → String → Option β
  | [], _ => none
  | (k, v) :: rest, key => if k = key then some v else GoMap.lookup rest key

/-- Go map assignment `m[key] = val`: if `key` is present its entry is
replaced (last-write-wins), otherwise a new entry is added. -/
def GoMap.insert {β : Type} : GoMap β → String → β → GoMap β
  | [], key, val => [(key, val)]
  | (k, v) :: rest, key, val =>
    if k = key then (k, val) :: rest else (k, v) :: GoMap.insert rest key val

/-- Go `len(m)`: number of entries. -/
def GoMap.size {β : Type} (m : GoMap β) : Nat := m.length

/-- `type PhiInst struct { Type types.Type; Preds map[string]values.Value }`. -/
structure PhiInst where
  Type' : Ty
  Preds : GoMap Value
deriving Repr

/-- The node kinds (named struct types) declared in value.go, in source
order. -/
inductive Kind where
  | add | fadd | sub | fsub | mul | fmul
  | udiv | sdiv | fdiv | urem | srem | frem
  | shl | lshr | ashr | and | or | xor
  | alloca | load | store | getelementptr
  | icmp | fcmp | phi
deriving DecidableEq, Repr

/-- The method set Go declares for each node kind in value.go.  The file's
only method declarations are the twelve `isInst` markers
(`func (AddInst) isInst() {}` … `func (FremInst) isInst() {}`, lines
648-659): the six bitwise kinds, the four memory kinds and Icmp/Fcmp/Phi
get none.  No kind declares `Type` or `String` (a struct field named
`Type` is not a method and does not satisfy an interface). -/
def declaredMethods : Kind → List String
  | .add => ["isInst"]
  | .fadd => ["isInst"]
  | .sub => ["isInst"]
  | .fsub => ["isInst"]
  | .mul => ["isInst"]
  | .fmul => ["isInst"]
  | .udiv => ["isInst"]
  | .sdiv => ["isInst"]
  | .fdiv => ["isInst"]
  | .urem => ["isInst"]
  | .srem => ["isInst"]
  | .frem => ["isInst"]
  | _ => []

/-- Go interface satisfaction for `ir.Instruction`: a type may be assigned
to `Instruction` iff its method set contains `isInst`. -/
def isInstruction (k : Kind) : Bool := (declaredMethods k).contains "isInst"

/-- Go interface satisfaction for `values.Value`: a type may be assigned to
`Value` iff its method set contains both `Type` (the `Type() types.Type`
method) and `String` (from the embedded `fmt.Stringer`). -/
def implementsValue (k : Kind) : Bool :=
  (declaredMethods k).contains "Type" && (declaredMethods k).contains "String"

/-- The 12 binary arithmetic kinds (source section "Binary Operations"). -/
def binaryKinds : List Kind :=
  [.add, .fadd, .sub, .fsub, .mul, .fmul, .udiv, .sdiv, .fdiv, .urem, .srem, .frem]

/-- The 6 bitwise kinds (source section "Bitwise Binary Operations"). -/
def bitwiseKinds : List Kind := [.shl, .lshr, .ashr, .and, .or, .xor]

/-- The 4 memory-access kinds. -/
def memoryKinds : List Kind := [.alloca, .load, .store, .getelementptr]

/-- The comparison/merge kinds (source section "Other Operations"). -/
def otherKinds : List Kind := [.icmp, .fcmp, .phi]

/-- All node kinds declared in value.go. -/
def allKinds : List Kind := binaryKinds ++ bitwiseKinds ++ memoryKinds ++ otherKinds

/-- `func (AddInst) isInst() {}` — a value-receiver method with an empty
body: it reads nothing, writes nothing, and the (copied) receiver is
returned unchanged. -/
def AddInst.isInst (self : AddInst) : AddInst × Unit := (self, ())

/-- `func (FaddInst) isInst() {}`. -/
def FaddInst.isInst (self : FaddInst) : FaddInst × Unit := (self, ())

/-- `func (SubInst) isInst() {}`. -/
def SubInst.isInst (self : SubInst) : SubInst × Unit := (self, ())

/-- `func (FsubInst) isInst() {}`. -/
def FsubInst.isInst (self : FsubInst) : FsubInst × Unit := (self, ())

/-- `func (MulInst) isInst() {}`. -/
def MulInst.isInst (self : MulInst) : MulInst × Unit := (self, ())

/-- `func (FmulInst) isInst() {}`. -/
def FmulInst.isInst (self : FmulInst) : FmulInst × Unit := (self, ())

/-- `func (UdivInst) isInst() {}`. -/
def UdivInst.isInst (self : UdivInst) : UdivInst × Unit := (self, ())

/-- `func (SdivInst) isInst() {}`. -/
def SdivInst.isInst (self : SdivInst) : SdivInst × Unit := (self, ())

/-- `func (FdivInst) isInst() {}`. -/
def FdivInst.isInst (self : FdivInst) : FdivInst × Unit := (self, ())

/-- `func (UremInst) isInst() {}`. -/
def UremInst.isInst (self : UremInst) : UremInst × Unit := (self, ())

/-- `func (SremInst) isInst() {}`. -/
def SremInst.isInst (self : SremInst) : SremInst × Unit := (self, ())

/-- `func (FremInst) isInst() {}`. -/
def FremInst.isInst (self : FremInst) : FremInst × Unit := (self, ())

/-- Go field read `i.Op1` on a value: returns the field and leaves the
struct as it was. -/
def AddInst.readOp1 (self : AddInst) : Value × AddInst := (self.Op1, self)

/-- Go field read `i.Op2`. -/
def AddInst.readOp2 (self : AddInst) : Value × AddInst := (self.Op2, self)

/-- Go field read `i.Type`. -/
def AddInst.readType (self : AddInst) : Ty × AddInst := (self.Type', self)

/-- Go field read `i.Pred` on an `IcmpInst`. -/
def IcmpInst.readPred (self : IcmpInst) : IntPredicate × IcmpInst := (self.Pred, self)

/-- Go composite literal `AllocaInst{Type: t}`: fields not listed in the
literal take their zero value — `0` for the `int` fields `NumElems` and
`Align`.  value.go declares no constructor function that would rewrite
them afterwards. -/
def allocaTypeOnlyLiteral (t : Ty) : AllocaInst := AllocaInst.mk t 0 0

/-- Inserting under a key makes exact-match lookup of that key return
exactly the newly stored value. -/
theorem GoMap.lookup_insert_self {β : Type} (m : GoMap β) (k : String) (v : β) :
    (m.insert k v).lookup k = some v := by
  induction m with
  | nil => simp [GoMap.insert, GoMap.lookup]
  | cons hd tl ih =>
    obtain ⟨k', v'⟩ := hd
    by_cases h : k' = k
    · simp [GoMap.insert, GoMap.lookup, h]
    · simp [GoMap.insert, GoMap.lookup, h, ih]

/-- Inserting under a key leaves lookup of every other key unchanged. -/
theorem GoMap.lookup_insert_other {β : Type} (m : GoMap β) (k k' : String) (v : β)
    (hne : k' ≠ k) : (m.insert k v).lookup k' = m.lookup k' := by
  have hkk : ¬ k = k' := fun h => hne h.symm
  induction m with
  | nil => simp [GoMap.insert, GoMap.lookup, hkk]
  | cons hd tl ih =>
    obtain ⟨k0, v0⟩ := hd
    by_cases h : k0 = k
    · have hk0 : ¬ k0 = k' := fun hh => hne (hh.symm.trans h)
      simp [GoMap.insert, GoMap.lookup, h, hk0, hkk]
    · simp [GoMap.insert, GoMap.lookup, h, ih]

/-- Inserting under a key that is already present replaces the entry and
leaves the number of entries unchanged. -/
theorem GoMap.size_insert_present {β : Type} (m : GoMap β) (k : String) (v : β)
    (h : (m.lookup k).isSome) : (m.insert k v).size = m.size := by
  induction m with
  | nil => simp [GoMap.lookup] at h
  | cons hd tl ih =>
    obtain ⟨k0, v0⟩ := hd
    by_cases hk : k0 = k
    · simp [GoMap.insert, hk, GoMap.size]
    · simp only [GoMap.lookup, hk, if_false] at h
      simp only [GoMap.insert, hk, if_false, GoMap.size, List.length_cons] at ih ⊢
      exact congrArg Nat.succ (ih h)

/-- Sample operand `%v1` of type `i32`. -/
def vOne : Value := Value.mk (Ty.mk "i32") "%v1"

/-- Sample operand `%v2` of type `i32`. -/
def vTwo : Value := Value.mk (Ty.mk "i32") "%v2"

/-- Sample operand `%v3` of type `i32`. -/
def vThree : Value := Value.mk (Ty.mk "i32") "%v3"

/-- Sample operand `%f` of type `double` (used for a type-mismatch input). -/
def vFloat : Value := Value.mk (Ty.mk "double") "%f"

/-- A `Phi` node with `Preds = {"bb1": vOne, "bb2": vTwo}`. -/
def samplePhi : PhiInst :=
  PhiInst.mk (Ty.mk "i32") (GoMap.insert (GoMap.insert [] "bb1" vOne) "bb2" vTwo)

/-- C1: the claim asserts that all 18 binary/bitwise kinds and Icmp/Fcmp
satisfy the `Instruction` classification; evaluating the declared method
sets shows `isInst` holds for the 12 binary arithmetic kinds only — every
bitwise kind and both comparison kinds fail it, so the claimed partition
(and its converse direction) fails on the code. -/
theorem instruction_classification_gap :
    isInstruction Kind.add = true ∧ isInstruction Kind.frem = true ∧
    isInstruction Kind.shl = false ∧ isInstruction Kind.lshr = false ∧
    isInstruction Kind.ashr = false ∧ isInstruction Kind.and = false ∧
    isInstruction Kind.or = false ∧ isInstruction Kind.xor = false ∧
    isInstruction Kind.icmp = false ∧ isInstruction Kind.fcmp = false ∧
    allKinds.filter isInstruction = binaryKinds := by decide

/-- C2: the claim asserts every instruction kind implements the `Value`
interface (a `Type()` method and a `String()` method); evaluating the
declared method sets shows no kind declares either method, so no
instruction kind satisfies `Value`. -/
theorem no_kind_implements_value :
    implementsValue Kind.add = false ∧ ∀ k : Kind, implementsValue k = false := by
  refine ⟨rfl, fun k => ?_⟩
  cases k <;> rfl

/-- C3: the claim asserts `Alloca{Type: T}` yields `NumElems == 1`;
the Go composite literal zero-initializes the unspecified field, so the
constructed node has `NumElems == 0`, not the documented default 1. -/
theorem alloca_unspecified_numelems_is_zero :
    (allocaTypeOnlyLiteral (Ty.mk "i32")).NumElems = 0 ∧
    (allocaTypeOnlyLiteral (Ty.mk "i32")).NumElems ≠ 1 := by decide

/-- C4: `IntPredicate` has exactly 10 members with contiguous ordinals
`IntEq = 0 .. IntSle = 9` in declaration order Eq, Ne, Ugt, Uge, Ult, Ule,
Sgt, Sge, Slt, Sle; `FloatPredicate` has exactly 16 members with
contiguous ordinals `FloatFalse = 0 .. FloatTrue = 15` in declaration
order False, Oeq, Ogt, Oge, Olt, Ole, One, Ord, Ueq, Ugt, Uge, Ult, Ule,
Une, Uno, True. -/
theorem predicate_enumeration_ordinals :
    intPredicates.length = 10 ∧
    intPredicates = (List.range 10).map Int.ofNat ∧
    IntEq = 0 ∧ IntSle = 9 ∧
    floatPredicates.length = 16 ∧
    floatPredicates = (List.range 16).map Int.ofNat ∧
    FloatFalse = 0 ∧ FloatTrue = 15 := by decide

/-- C5: for every `Phi` node, lookup in `Preds` is exact-match and returns
exactly the value stored under the label; inserting under a label that is
already present replaces the prior entry (lookup then yields the new
value, other labels are untouched, and the entry count does not grow). -/
theorem phi_preds_exact_lookup_and_overwrite (p : PhiInst) (k k' : String) (v : Value)
    (h : (p.Preds.lookup k).isSome) :
    (p.Preds.insert k v).lookup k = some v ∧
    (k' ≠ k → (p.Preds.insert k v).lookup k' = p.Preds.lookup k') ∧
    (p.Preds.insert k v).size = p.Preds.size :=
  ⟨GoMap.lookup_insert_self _ _ _,
   fun hne => GoMap.lookup_insert_other _ _ _ _ hne,
   GoMap.size_insert_present _ _ _ h⟩

/-- C5 witness: on `Preds = {"bb1": vOne, "bb2": vTwo}`, lookup of `"bb1"`
returns exactly `vOne`; inserting `vThree` under `"bb2"` replaces the prior
entry, so the map has 2 entries (not 3) and `"bb2"` now maps to `vThree`. -/
theorem phi_preds_exact_lookup_and_overwrite_witness :
    samplePhi.Preds.lookup "bb1" = some vOne ∧
    (samplePhi.Preds.insert "bb2" vThree).lookup "bb2" = some vThree ∧
    (samplePhi.Preds.insert "bb2" vThree).lookup "bb1" = some vOne ∧
    (samplePhi.Preds.insert "bb2" vThree).size = 2 := by
  have h := phi_preds_exact_lookup_and_overwrite samplePhi "bb2" "bb1" vThree (by decide)
  exact ⟨by decide, h.1, (h.2.1 (by decide)).trans (by decide), h.2.2.trans (by decide)⟩

/-- C6: construction is the identity on fields — an `Add` built from type
`T` and well-typed operands `a`, `b` reads back exactly `T`, `a`, `b`
(operand identity unchanged), and an `Icmp` built with a predicate reads
back exactly that predicate. -/
theorem construction_field_roundtrip (T : Ty) (a b : Value) (pred : IntPredicate)
    (ha : a.typ = T) (hb : b.typ = T) :
    (AddInst.mk T a b).Type' = T ∧ (AddInst.mk T a b).Op1 = a ∧
    (AddInst.mk T a b).Op2 = b ∧
    (IcmpInst.mk pred T a b).Pred = pred ∧
    (IcmpInst.mk pred T a b).Type' = T ∧
    (IcmpInst.mk pred T a b).Op1 = a ∧ (IcmpInst.mk pred T a b).Op2 = b :=
  ⟨rfl, rfl, rfl, rfl, rfl, rfl, rfl⟩

/-- C6 witness: with `T = i32` and the concrete `i32` operands `vOne`,
`vTwo`, the `Add` fields and the `Icmp` predicate `IntSlt` read back
exactly. -/
theorem construction_field_roundtrip_witness :
    (AddInst.mk (Ty.mk "i32") vOne vTwo).Op1 = vOne ∧
    (AddInst.mk (Ty.mk "i32") vOne vTwo).Op2 = vTwo ∧
    (IcmpInst.mk IntSlt (Ty.mk "i32") vOne vTwo).Pred = IntSlt := by
  have h := construction_field_roundtrip (Ty.mk "i32") vOne vTwo IntSlt rfl rfl
  exact ⟨h.2.1, h.2.2.1, h.2.2.2.1⟩

/-- C7: a `Getelementptr` keeps its index sequence exactly as given at
construction; in particular indices `[0, 3]` come back as a length-2
sequence `[0, 3]`, never reordered. -/
theorem getelementptr_order_preserved (t : Ty) (p : Value) (idx : List Int) :
    (GetelementptrInst.mk t p idx).Indicies = idx ∧
    (GetelementptrInst.mk t p [0, 3]).Indicies.length = 2 ∧
    (GetelementptrInst.mk t p [0, 3]).Indicies = [0, 3] :=
  ⟨rfl, rfl, rfl⟩

/-- C8: construction is total and never rejects: ill-formed inputs —
`NumElems < 1`, an arbitrary (e.g. non-power-of-two) alignment, an empty
index list, operands of mismatched types — all construct successfully and
are stored verbatim, with no error path in the core. -/
theorem construction_total_and_permissive (t : Ty) (a b p valV addr : Value)
    (numElems align : Int) (hbad : numElems < 1) (hmis : a.typ ≠ b.typ) :
    (AllocaInst.mk t numElems align).NumElems = numElems ∧
    (AllocaInst.mk t numElems align).Align = align ∧
    (GetelementptrInst.mk t p ([] : List Int)).Indicies = [] ∧
    (AddInst.mk t a b).Op1 = a ∧ (AddInst.mk t a b).Op2 = b ∧
    (StoreInst.mk t valV addr align).Val = valV ∧
    (StoreInst.mk t valV addr align).Addr = addr :=
  ⟨rfl, rfl, rfl, rfl, rfl, rfl, rfl⟩

/-- C8 witness: `NumElems = 0 < 1`, alignment 3 (not a power of two), an
empty index list and mismatched operand types (`i32` vs `double`) are all
accepted and stored verbatim. -/
theorem construction_total_and_permissive_witness :
    (AllocaInst.mk (Ty.mk "i32") 0 3).NumElems = 0 ∧
    (AllocaInst.mk (Ty.mk "i32") 0 3).Align = 3 ∧
    (GetelementptrInst.mk (Ty.mk "i32") vOne ([] : List Int)).Indicies = [] ∧
    (AddInst.mk (Ty.mk "i32") vOne vFloat).Op2 = vFloat := by
  have h := construction_total_and_permissive (Ty.mk "i32") vOne vFloat vOne vOne vOne
    0 3 (by decide) (by decide)
  exact ⟨h.1, h.2.1, h.2.2.1, h.2.2.2.2.1⟩

/-- C9: every core operation — each of the twelve `isInst` marker calls and
field reads — leaves the node unchanged: the receiver after the call equals
the receiver before it, field for field. -/
theorem core_operations_do_not_mutate
    (a : AddInst) (fa : FaddInst) (s : SubInst) (fs : FsubInst)
    (m : MulInst) (fm : FmulInst) (ud : UdivInst) (sd : SdivInst)
    (fd : FdivInst) (ur : UremInst) (sr : SremInst) (fr : FremInst)
    (c : IcmpInst) :
    a.isInst.1 = a ∧ fa.isInst.1 = fa ∧ s.isInst.1 = s ∧ fs.isInst.1 = fs ∧
    m.isInst.1 = m ∧ fm.isInst.1 = fm ∧ ud.isInst.1 = ud ∧ sd.isInst.1 = sd ∧
    fd.isInst.1 = fd ∧ ur.isInst.1 = ur ∧ sr.isInst.1 = sr ∧ fr.isInst.1 = fr ∧
    a.readOp1.2 = a ∧ a.readOp2.2 = a ∧ a.readType.2 = a ∧ c.readPred.2 = c ∧
    a.isInst.1.Type' = a.Type' ∧ a.isInst.1.Op1 = a.Op1 ∧ a.isInst.1.Op2 = a.Op2 :=
  ⟨rfl, rfl, rfl, rfl, rfl, rfl, rfl, rfl, rfl, rfl, rfl, rfl,
   rfl, rfl, rfl, rfl, rfl, rfl, rfl⟩

/-- C10: a `Getelementptr` node is exactly a triple of a type, a pointer
operand and a list of machine integers — construction from such triples is
a bijection onto the node type, so every index of every constructible node
is a static `int` fixed at construction and a runtime `Value` index is not
representable. -/
theorem getelementptr_indicies_static_int :
    Function.Bijective
      (fun x : Ty × Value × List Int => GetelementptrInst.mk x.1 x.2.1 x.2.2) := by
  constructor
  · intro x y hxy
    obtain ⟨tx, px, ix⟩ := x
    obtain ⟨ty', py, iy⟩ := y
    simp only [GetelementptrInst.mk.injEq] at hxy
    simp only [Prod.mk.injEq]
    exact ⟨hxy.1, hxy.2.1, hxy.2.2⟩
  · intro g
    exact ⟨⟨g.Type', g.Ptr, g.Indicies⟩, rfl⟩
